import Mathlib

/-!
Verification of the image-viewer item-lifecycle and session-persistence core
(crates/image_viewer/src/image_viewer.rs).

The persistent store is the SQLite table `image_viewers` with columns
`workspace_id INTEGER`, `item_id INTEGER UNIQUE`, `image_path BLOB`,
composite primary key `(workspace_id, item_id)`. We embed the table as a
list of rows and the four queries of `ImageViewerDb` as pure functions
with SQLite semantics:

  - `save_image_path` is `INSERT OR REPLACE`: every row conflicting with a
    uniqueness constraint is removed, then the new row is inserted. Since
    `item_id` is UNIQUE, conflicting rows are exactly those sharing the
    `item_id` (a primary-key conflict on `(workspace_id, item_id)` implies
    an `item_id` conflict).
  - `get_image_path` is `SELECT image_path WHERE item_id = ? AND
    workspace_id = ?` returning at most one row.
  - `update_workspace_id` is `UPDATE ... SET workspace_id = ? WHERE
    workspace_id = ? AND item_id = ?`.
  - `delete_unloaded_items` is `DELETE WHERE workspace_id = ? AND item_id
    NOT IN (alive list)`; SQLite accepts the empty list, with `x NOT IN ()`
    evaluating to true.

The lifecycle functions (`deserialize`, `serialize`, `cleanup`,
`clone_on_split`, `on_image_event`, `should_serialize`) are embedded as
pure functions; the external collaborators (project path resolution, image
opening, the GPUI context handing out fresh focus handles) enter as
explicit parameters.
-/

namespace ImageViewer

/-- One row of the `image_viewers` table: `workspace_id INTEGER`,
`item_id INTEGER UNIQUE`, `image_path BLOB`. -/
structure Row where
  workspace_id : Int
  item_id : Nat
  image_path : String
  deriving DecidableEq, Repr

/-- The `image_viewers` table as a list of rows. -/
abbrev Store := List Row

/-- `ImageViewerDb::get_image_path`:
`SELECT image_path FROM image_viewers WHERE item_id = ? AND workspace_id = ?`.
Under the table's constraints at most one row matches; we return the first. -/
def get_image_path (item_id : Nat) (workspace_id : Int) (s : Store) : Option String :=
  (s.find? (fun r => r.item_id == item_id && r.workspace_id == workspace_id)).map
    (fun r => r.image_path)

/-- `ImageViewerDb::save_image_path`:
`INSERT OR REPLACE INTO image_viewers(item_id, workspace_id, image_path) VALUES (?, ?, ?)`.
`INSERT OR REPLACE` first deletes every row violating a uniqueness
constraint against the new row — here, every row with the same `item_id`
(the UNIQUE column; a `(workspace_id, item_id)` primary-key conflict
implies an `item_id` conflict) — then inserts the new row. -/
def save_image_path (item_id : Nat) (workspace_id : Int) (image_path : String)
    (s : Store) : Store :=
  s.filter (fun r => r.item_id != item_id) ++ [⟨workspace_id, item_id, image_path⟩]

/-- `ImageViewerDb::update_workspace_id`:
`UPDATE image_viewers SET workspace_id = ? WHERE workspace_id = ? AND item_id = ?`. -/
def update_workspace_id (new_id old_id : Int) (item_id : Nat) (s : Store) : Store :=
  s.map (fun r =>
    if r.workspace_id == old_id && r.item_id == item_id then
      { r with workspace_id := new_id }
    else r)

/-- `ImageViewerDb::delete_unloaded_items`:
`DELETE FROM image_viewers WHERE workspace_id = ? AND item_id NOT IN (?, ..., ?)`
with one bound parameter per alive item id. With an empty alive list the
SQL is `item_id NOT IN ()`, which SQLite evaluates to true for every row. -/
def delete_unloaded_items (workspace : Int) (alive_items : List Nat) (s : Store) : Store :=
  s.filter (fun r => !(r.workspace_id == workspace && !(alive_items.contains r.item_id)))

/-- A write operation against the `image_viewers` table: `save_image_path`
or `update_workspace_id`, the two operations that touch existing rows. -/
inductive StoreOp where
  | save (item_id : Nat) (workspace_id : Int) (image_path : String)
  | updateWs (new_id old_id : Int) (item_id : Nat)
  deriving DecidableEq, Repr

/-- Apply one write operation to the store. -/
def applyOp : StoreOp → Store → Store
  | StoreOp.save item_id workspace_id image_path, s =>
      save_image_path item_id workspace_id image_path s
  | StoreOp.updateWs new_id old_id item_id, s =>
      update_workspace_id new_id old_id item_id s

/-- Apply a sequence of write operations, oldest first. -/
def applyOps (ops : List StoreOp) (s : Store) : Store :=
  ops.foldl (fun s op => applyOp op s) s

/-- `ImageItemEvent` (from `project::image_store`): the change events an
`ImageItem` emits to its observers. -/
inductive ImageItemEvent where
  | fileHandleChanged
  | reloaded
  | reloadNeeded
  deriving DecidableEq, Repr

/-- `ImageViewEvent`: the events an `ImageView` itself emits. -/
inductive ImageViewEvent where
  | titleChanged
  deriving DecidableEq, Repr

/-- A UI effect performed by the view through its context: emitting an
`ImageViewEvent` to the host, or `cx.notify()` (a redraw request). -/
inductive UiEffect where
  | emit (e : ImageViewEvent)
  | notify
  deriving DecidableEq, Repr

/-- `ImageView::on_image_event`: on `FileHandleChanged` or `Reloaded`, emit
`TitleChanged` and call `cx.notify()`; on `ReloadNeeded`, do nothing. The
result lists the effects performed, in order. -/
def on_image_event : ImageItemEvent → List UiEffect
  | ImageItemEvent.fileHandleChanged =>
      [UiEffect.emit ImageViewEvent.titleChanged, UiEffect.notify]
  | ImageItemEvent.reloaded =>
      [UiEffect.emit ImageViewEvent.titleChanged, UiEffect.notify]
  | ImageItemEvent.reloadNeeded => []

/-- `ImageView::should_serialize`: `false` for every event. -/
def should_serialize (_event : ImageViewEvent) : Bool :=
  false

/-- The `ImageView` entity. `image_item` and `project` are the shared model
handles (represented by their entity ids), `focus_handle` the opaque focus
token handed out by the context. -/
structure ImageView where
  image_item : Nat
  project : Nat
  focus_handle : Nat
  deriving DecidableEq, Repr

/-- `ImageView::clone_on_split`: builds a new view from the same
`image_item` and `project` handles and a fresh focus handle from the
context. The store is reachable through the context (the global
`IMAGE_VIEWER` connection) but the function never touches it; it is a
parameter here only so that independence from it can be stated. -/
def clone_on_split (v : ImageView) (_store : Store) (fresh_handle : Nat) :
    Option ImageView :=
  some ⟨v.image_item, v.project, fresh_handle⟩

/-- `ProjectPath`: a worktree id plus a path relative to that worktree. -/
structure ProjectPath where
  worktree_id : Nat
  path : String
  deriving DecidableEq, Repr

/-- The error cases of `ImageView::deserialize`, in source order:
`get_image_path` finds no row ("No image path found"),
`find_or_create_worktree` fails (context "Path not found"), or
`open_image` fails. -/
inductive DeserializeError where
  | noImagePathFound
  | pathNotFound (inner : String)
  | openFailed (inner : String)
  deriving DecidableEq, Repr

/-- `ImageView::deserialize`: look up the stored path for
`(item_id, workspace_id)`; if absent fail with "No image path found".
Otherwise resolve the path through `Project::find_or_create_worktree`
(yielding a worktree id and a relative path), open the image through
`Project::open_image`, and construct the view. Each external step is a
parameter; any failure aborts and no view is constructed. -/
def deserialize (s : Store)
    (find_or_create_worktree : String → Except String (Nat × String))
    (open_image : ProjectPath → Except String Nat)
    (project fresh_handle : Nat) (workspace_id : Int) (item_id : Nat) :
    Except DeserializeError ImageView :=
  match get_image_path item_id workspace_id s with
  | none => Except.error DeserializeError.noImagePathFound
  | some image_path =>
    match find_or_create_worktree image_path with
    | Except.error e => Except.error (DeserializeError.pathNotFound e)
    | Except.ok (worktree_id, relative_path) =>
      match open_image ⟨worktree_id, relative_path⟩ with
      | Except.error e => Except.error (DeserializeError.openFailed e)
      | Except.ok image_item => Except.ok ⟨image_item, project, fresh_handle⟩

/-- `ImageView::serialize`: first `workspace.database_id()?` (skip with
`None` when the workspace has no database id), then
`self.image_item.read(cx).file.as_local()?.abs_path(cx)` (skip with `None`
when the file has no local absolute path); otherwise enqueue a
`save_image_path(item_id, workspace_id, image_path)` write, returned here
as the row of the enqueued write. -/
def serialize (database_id : Option Int) (abs_path : Option String)
    (item_id : Nat) : Option (Nat × Int × String) :=
  match database_id with
  | none => none
  | some workspace_id =>
    match abs_path with
    | none => none
    | some image_path => some (item_id, workspace_id, image_path)

/-- The store after a `serialize` call's enqueued write (if any) completes:
`None` from `serialize` means no store write at all. -/
def serializeEffect (s : Store) (database_id : Option Int)
    (abs_path : Option String) (item_id : Nat) : Store :=
  match serialize database_id abs_path item_id with
  | none => s
  | some (i, w, p) => save_image_path i w p s

/-- Filtering twice with the same predicate is the same as filtering once. -/
theorem filter_self_idem {α : Type} (p : α → Bool) (l : List α) :
    (l.filter p).filter p = l.filter p := by
  induction l with
  | nil => rfl
  | cons a t ih => cases h : p a <;> simp [List.filter_cons, h, ih]

/-- Both store write operations preserve distinctness of the item ids. -/
theorem applyOp_item_ids_nodup (op : StoreOp) (s : Store)
    (h : (s.map (fun r => r.item_id)).Nodup) :
    ((applyOp op s).map (fun r => r.item_id)).Nodup := by
  cases op with
  | save item ws p =>
    simp only [applyOp, save_image_path, List.map_append]
    rw [List.nodup_append]
    refine ⟨List.Nodup.sublist (List.Sublist.map _ (List.filter_sublist s)) h, by simp, ?_⟩
    intro x hx hmem
    simp only [List.map_cons, List.map_nil, List.mem_singleton] at hmem
    subst hmem
    simp only [List.mem_map, List.mem_filter, bne_iff_ne, ne_eq] at hx
    obtain ⟨r, ⟨_, hne⟩, hid⟩ := hx
    exact hne hid
  | updateWs new_id old_id item =>
    have hmap : ((update_workspace_id new_id old_id item s).map (fun r => r.item_id))
        = s.map (fun r => r.item_id) := by
      unfold update_workspace_id
      rw [List.map_map]
      apply List.map_congr_left
      intro r _
      simp only [Function.comp]
      split <;> rfl
    simpa [applyOp, hmap] using h

/-- A sequence of store write operations preserves distinctness of the
item ids. -/
theorem applyOps_item_ids_nodup (ops : List StoreOp) (s : Store)
    (h : (s.map (fun r => r.item_id)).Nodup) :
    ((applyOps ops s).map (fun r => r.item_id)).Nodup := by
  induction ops generalizing s with
  | nil => exact h
  | cons op rest ih => exact ih (applyOp op s) (applyOp_item_ids_nodup op s h)

/-- C1: `delete_unloaded_items(workspace_id, alive_item_ids)` deletes
exactly the rows whose `workspace_id` matches and whose `item_id` is not in
the alive list: a row survives iff it was present and either belongs to
another workspace or is alive; no row is added or duplicated (the result is
a sublist of the store); running it a second time with the same alive list
changes nothing; and with an empty alive list a row survives iff it belongs
to another workspace. -/
theorem delete_unloaded_items_reconciliation (s : Store) (ws : Int)
    (alive : List Nat) :
    (∀ r : Row, r ∈ delete_unloaded_items ws alive s ↔
        r ∈ s ∧ (r.workspace_id ≠ ws ∨ r.item_id ∈ alive))
    ∧ List.Sublist (delete_unloaded_items ws alive s) s
    ∧ delete_unloaded_items ws alive (delete_unloaded_items ws alive s) =
        delete_unloaded_items ws alive s
    ∧ (∀ r : Row, r ∈ delete_unloaded_items ws [] s ↔
        r ∈ s ∧ r.workspace_id ≠ ws) := by
  refine ⟨?_, ?_, ?_, ?_⟩
  · intro r
    simp [delete_unloaded_items, List.mem_filter]
  · exact List.filter_sublist s
  · exact filter_self_idem _ s
  · intro r
    simp [delete_unloaded_items, List.mem_filter]

/-- C2: saving a path and reading it back returns exactly that path, and
reading a pair for which no row is stored returns `none` rather than an
error. -/
theorem save_get_roundtrip (s : Store) (item : Nat) (ws : Int) (p : String) :
    get_image_path item ws (save_image_path item ws p s) = some p
    ∧ ((∀ r ∈ s, ¬(r.item_id = item ∧ r.workspace_id = ws)) →
        get_image_path item ws s = none) := by
  constructor
  · unfold get_image_path save_image_path
    rw [List.find?_append]
    have h1 : (s.filter fun r => r.item_id != item).find?
        (fun r => r.item_id == item && r.workspace_id == ws) = none := by
      rw [List.find?_eq_none]
      intro x hx
      rw [List.mem_filter] at hx
      have hne : x.item_id ≠ item := by simpa using hx.2
      simp [hne]
    rw [h1]
    simp [List.find?]
  · intro h
    unfold get_image_path
    have h1 : s.find? (fun r => r.item_id == item && r.workspace_id == ws)
        = none := by
      rw [List.find?_eq_none]
      intro x hx
      have := h x hx
      simp only [Bool.and_eq_true, beq_iff_eq, not_and] at this ⊢
      exact this
    simp [h1]

/-- C2 witness: the round trip at item 7, workspace 1, path "/p" on the
empty store, and the miss at item 7, workspace 1 on the empty store. -/
theorem save_get_roundtrip_witness :
    get_image_path 7 1 (save_image_path 7 1 "/p" []) = some "/p"
    ∧ get_image_path 7 1 [] = none :=
  ⟨(save_get_roundtrip [] 7 1 "/p").1,
   (save_get_roundtrip [] 7 1 "/p").2 (by simp)⟩

/-- C3: `save_image_path` is an idempotent upsert: saving the same
arguments twice leaves the store exactly as one save does, and after a save
the rows carrying the saved item id are exactly the one new row. -/
theorem save_image_path_idempotent_upsert (s : Store) (item : Nat) (ws : Int)
    (p : String) :
    save_image_path item ws p (save_image_path item ws p s) =
        save_image_path item ws p s
    ∧ (save_image_path item ws p s).filter (fun r => r.item_id == item) =
        [⟨ws, item, p⟩] := by
  constructor
  · unfold save_image_path
    rw [List.filter_append, filter_self_idem]
    simp [List.filter_cons]
  · unfold save_image_path
    rw [List.filter_append]
    have h1 : (s.filter fun r => r.item_id != item).filter
        (fun r => r.item_id == item) = [] := by
      rw [List.filter_filter, List.filter_eq_nil_iff]
      intro r _
      simp only [Bool.and_eq_true, beq_iff_eq, bne_iff_ne, ne_eq, not_and]
      intro he
      simp [he]
    rw [h1]
    simp [List.filter_cons]

/-- C4: starting from the empty store, any sequence of `save_image_path`
and `update_workspace_id` operations keeps the item ids of the rows
pairwise distinct: no item id ever occupies two rows (in particular never
two rows under different workspace ids). -/
theorem item_id_unique_invariant (ops : List StoreOp) :
    ((applyOps ops []).map (fun r => r.item_id)).Nodup :=
  applyOps_item_ids_nodup ops [] (by simp)

/-- C5: when no image path is stored for `(workspace_id, item_id)`,
`deserialize` fails with the no-path error and constructs no view; and a
failure of path resolution or of image opening likewise aborts with that
error surfaced, never yielding a view. -/
theorem deserialize_failure_spec (s : Store)
    (fw : String → Except String (Nat × String))
    (oi : ProjectPath → Except String Nat)
    (proj fresh : Nat) (ws : Int) (item : Nat) :
    (get_image_path item ws s = none →
      deserialize s fw oi proj fresh ws item =
        Except.error DeserializeError.noImagePathFound)
    ∧ (∀ p e, get_image_path item ws s = some p → fw p = Except.error e →
        deserialize s fw oi proj fresh ws item =
          Except.error (DeserializeError.pathNotFound e))
    ∧ (∀ p wt rel e, get_image_path item ws s = some p →
        fw p = Except.ok (wt, rel) → oi ⟨wt, rel⟩ = Except.error e →
        deserialize s fw oi proj fresh ws item =
          Except.error (DeserializeError.openFailed e)) := by
  refine ⟨?_, ?_, ?_⟩
  · intro h
    simp [deserialize, h]
  · intro p e h1 h2
    simp [deserialize, h1, h2]
  · intro p wt rel e h1 h2 h3
    simp [deserialize, h1, h2, h3]

/-- C5 witness: the no-path error on the empty store; the resolution error
on a one-row store with a failing resolver; the open error on the same
store with a succeeding resolver and a failing opener. -/
theorem deserialize_failure_spec_witness :
    deserialize [] (fun _ => Except.error "nf") (fun _ => Except.error "op")
        0 0 1 7 = Except.error DeserializeError.noImagePathFound
    ∧ deserialize [⟨1, 7, "/img"⟩] (fun _ => Except.error "nf")
        (fun _ => Except.error "op") 0 0 1 7 =
        Except.error (DeserializeError.pathNotFound "nf")
    ∧ deserialize [⟨1, 7, "/img"⟩] (fun _ => Except.ok (3, "rel"))
        (fun _ => Except.error "op") 0 0 1 7 =
        Except.error (DeserializeError.openFailed "op") :=
  ⟨(deserialize_failure_spec [] _ _ 0 0 1 7).1 rfl,
   (deserialize_failure_spec [⟨1, 7, "/img"⟩] _ _ 0 0 1 7).2.1 "/img" "nf"
     rfl rfl,
   (deserialize_failure_spec [⟨1, 7, "/img"⟩] _ _ 0 0 1 7).2.2 "/img" 3 "rel"
     "op" rfl rfl rfl⟩

/-- C6 counterexample: a view whose file does have a local absolute path
("/a") but whose workspace has no database id: `serialize` returns `none`
and writes nothing, so the claim that a resolvable path always leads to a
store write is false at this input. -/
theorem serialize_write_counterexample :
    serialize none (some "/a") 1 = none
    ∧ serializeEffect [] none (some "/a") 1 = [] :=
  ⟨rfl, rfl⟩

/-- C6 amended: when the file has no local absolute path, `serialize`
returns `none` and performs no store write; and when the workspace has a
database id and the file has a local absolute path, it enqueues exactly the
write of `(item_id, workspace_id, absolute_path)`, whose completion is the
corresponding `save_image_path`. -/
theorem serialize_amended_spec (database_id : Option Int)
    (abs_path : Option String) (item : Nat) (s : Store) :
    (abs_path = none → serialize database_id abs_path item = none
      ∧ serializeEffect s database_id abs_path item = s)
    ∧ (∀ ws p, database_id = some ws → abs_path = some p →
        serialize database_id abs_path item = some (item, ws, p)
        ∧ serializeEffect s database_id abs_path item =
            save_image_path item ws p s) := by
  constructor
  · rintro rfl
    cases database_id <;> exact ⟨rfl, rfl⟩
  · rintro ws p rfl rfl
    exact ⟨rfl, rfl⟩

/-- C6 amended witness: the skip with a persisted workspace and no path,
and the write with a persisted workspace and path "/a". -/
theorem serialize_amended_spec_witness :
    (serialize (some 1) none 7 = none
      ∧ serializeEffect [] (some 1) none 7 = [])
    ∧ (serialize (some 1) (some "/a") 7 = some (7, 1, "/a")
      ∧ serializeEffect [] (some 1) (some "/a") 7 =
          save_image_path 7 1 "/a" []) :=
  ⟨(serialize_amended_spec (some 1) none 7 []).1 rfl,
   (serialize_amended_spec (some 1) (some "/a") 7 []).2 1 "/a" rfl rfl⟩

/-- C7: `ReloadNeeded` produces no effect at all (no `TitleChanged`, no
redraw), while `FileHandleChanged` and `Reloaded` each produce exactly one
`TitleChanged` emission and one redraw request. -/
theorem on_image_event_isolation :
    on_image_event ImageItemEvent.reloadNeeded = []
    ∧ (on_image_event ImageItemEvent.fileHandleChanged).count
        (UiEffect.emit ImageViewEvent.titleChanged) = 1
    ∧ (on_image_event ImageItemEvent.fileHandleChanged).count
        UiEffect.notify = 1
    ∧ (on_image_event ImageItemEvent.reloaded).count
        (UiEffect.emit ImageViewEvent.titleChanged) = 1
    ∧ (on_image_event ImageItemEvent.reloaded).count UiEffect.notify = 1 := by
  decide

/-- C8: `should_serialize` returns `false` for every event the view can
emit, so no self-emitted event triggers an autosave cycle. -/
theorem should_serialize_always_false (e : ImageViewEvent) :
    should_serialize e = false :=
  rfl

/-- C9: splitting yields a view sharing the same `image_item` and the same
`project` as the original, carrying the fresh focus handle supplied by the
context, and built without consulting the persistent store (the result is
the same whatever the store holds). -/
theorem clone_on_split_spec (v : ImageView) (s1 s2 : Store) (fresh : Nat) :
    ∃ w, clone_on_split v s1 fresh = some w
      ∧ w.image_item = v.image_item
      ∧ w.project = v.project
      ∧ w.focus_handle = fresh
      ∧ clone_on_split v s1 fresh = clone_on_split v s2 fresh :=
  ⟨⟨v.image_item, v.project, fresh⟩, rfl, rfl, rfl, rfl, rfl⟩

/-- C10: when the owning workspace has no database id, `serialize` returns
`none` and performs no store write, whatever the absolute path of the file
is. -/
theorem serialize_skips_unpersisted_workspace (abs_path : Option String)
    (item : Nat) (s : Store) :
    serialize none abs_path item = none
    ∧ serializeEffect s none abs_path item = s :=
  ⟨rfl, rfl⟩

end ImageViewer
